import Mathlib

/-!
Verification of the Courier onboarding cookbook sources.

Shallow embedding of:
* `src/Configurations/user_preferences_management.js` (`UserPreferencesManager`)
* `src/unnamed/part_002` (webhook handler for Courier events)
* `src/unnamed/part_005` (`SlackEscalation`)

JavaScript objects with string keys are embedded as association lists
`List (String × α)` (insertion order preserved, later assignment to an
existing key overwrites in place, exactly like a JS object).  Machine
timestamps (`Date`) are embedded as integer epoch minutes or milliseconds
as noted at each definition.
-/

namespace KV

/-- Assignment `o[k] = v` on a JS object: overwrite the first (and in a
well-formed object, only) entry with key `k`, else append a new entry. -/
def set : List (String × α) → String → α → List (String × α)
  | [], k, v => [(k, v)]
  | e :: t, k, v => if e.1 = k then (k, v) :: t else e :: set t k v

/-- Property read `o[k]`: first entry with key `k`. -/
def get : List (String × α) → String → Option α
  | [], _ => none
  | e :: t, k => if e.1 = k then some e.2 else get t k

/-- Sequence of assignments `for (k of keys(src)) dst[k] = src[k]`, which is
also the meaning of an object spread `{...dst, ...src}`. -/
def setAll (base : List (String × α)) (es : List (String × α)) : List (String × α) :=
  es.foldl (fun l e => set l e.1 e.2) base

/-- Last-wins lookup in a list of assignments (the value the key holds after
all the assignments are played, if it is assigned at all). -/
def getLast : List (String × α) → String → Option α
  | [], _ => none
  | e :: t, k =>
    match getLast t k with
    | some v => some v
    | none => if e.1 = k then some e.2 else none

/-- Keys of the object, in insertion order. -/
def keys (l : List (String × α)) : List String := l.map Prod.fst

/-- First-defined choice between two optional values. -/
def orD : Option α → Option α → Option α
  | some v, _ => some v
  | none, b => b

/-- A well-formed JS object binds each key once. -/
def WF (l : List (String × α)) : Prop := (keys l).Nodup

instance (l : List (String × α)) : Decidable (WF l) := by
  unfold WF; infer_instance

end KV

namespace UserPrefs

/-- The `quiet_hours` object of `user_preferences_management.js`.  `start`
and `end` hold `"HH:MM"` strings; the JS `end` key is called `end_` here
because `end` is reserved in Lean. -/
structure QuietHours where
  enabled : Bool
  start : String
  end_ : String
  timezone : String
deriving DecidableEq, Repr

/-- The `frequency` object. -/
structure Frequency where
  digest : String
  max_per_day : Int
  quiet_hours : QuietHours
deriving DecidableEq, Repr

/-- A full preference record, shaped like `defaultPreferences` in the
source.  `channels` and `categories` are JS objects keyed by channel and
category name. -/
structure Prefs where
  channels : List (String × Bool)
  categories : List (String × Bool)
  frequency : Frequency
  language : String
  unsubscribed : Bool
deriving DecidableEq, Repr

/-- `this.defaultPreferences` from the constructor. -/
def defaultPreferences : Prefs :=
  { channels := [("email", true), ("sms", false), ("push", true), ("inbox", true), ("slack", false)]
    categories := [("marketing", true), ("product_updates", true), ("onboarding", true),
                   ("security", true), ("billing", true), ("team_activity", true)]
    frequency :=
      { digest := "daily"
        max_per_day := 10
        quiet_hours := { enabled := true, start := "21:00", end_ := "09:00", timezone := "America/New_York" } }
    language := "en"
    unsubscribed := false }

/-- Characters before the first `:` of a string, and the remainder after
it. -/
def splitColon : List Char → List Char × List Char
  | [] => ([], [])
  | c :: cs =>
    if c = ':' then ([], cs)
    else
      let r := splitColon cs
      (c :: r.1, r.2)

/-- `Number(piece)` for the digit pieces of an `"HH:MM"` string. -/
def digitsVal (cs : List Char) : Nat :=
  cs.foldl (fun n c => n * 10 + (c.toNat - 48)) 0

/-- Parse `"HH:MM"` into minutes since local midnight, as
`[h, m] = s.split(':').map(Number); h * 60 + m` does for well-formed
inputs. -/
def parseHM (s : String) : Nat :=
  let p := splitColon s.data
  digitsVal p.1 * 60 + digitsVal (splitColon p.2).1

/-- `isQuietHours` from the source.  `currentTime` is the recipient's local
wall-clock time in minutes since local midnight (the source computes it
from `new Date()` rendered in `quietHoursConfig.timezone`). -/
def isQuietHours (cfg : QuietHours) (currentTime : Nat) : Bool :=
  if !cfg.enabled then false
  else
    let startTime := parseHM cfg.start
    let endTime := parseHM cfg.end_
    if startTime > endTime then
      decide (currentTime ≥ startTime) || decide (currentTime < endTime)
    else
      decide (currentTime ≥ startTime) && decide (currentTime < endTime)

/-- Local-midnight instant (in epoch minutes) of the day containing epoch
minute `now`, for a clock whose offset from the epoch scale is `offset`
minutes; this is what `d.setHours(0, 0, 0, 0)` computes for the zone the
`Date` is rendered in. -/
def dayStartLocalEpoch (now offset : Int) : Int :=
  (now + offset) - (now + offset) % 1440 - offset

/-- `getNextAvailableTime` from the source, on epoch minutes: today's
occurrence of `end` on the server's local clock, pushed to tomorrow if it
has already passed. -/
def getNextAvailableTime (cfg : QuietHours) (serverNow serverOffset : Int) : Int :=
  let endT : Int := parseHM cfg.end_
  let candidate := dayStartLocalEpoch serverNow serverOffset + endT
  if candidate < serverNow then candidate + 1440 else candidate

/-- Inputs of one `applyPreferences` evaluation that the source reads from
the environment: the recipient-local wall-clock minutes (for quiet hours),
the server clock and its zone offset, the recipient's zone offset (used
only by the specification-side daily count), and the epoch-minute
timestamps of the recipient's logged messages. -/
structure SendContext where
  localTime : Nat
  serverNow : Int
  serverOffset : Int
  recipientOffset : Int
  logs : List Int
deriving DecidableEq, Repr

/-- `getTodayMessageCount` from the source: `today = new Date();
today.setHours(0,0,0,0)` — midnight on the SERVER's local clock — then the
number of logged messages at or after it. -/
def getTodayMessageCount (ctx : SendContext) : Nat :=
  (ctx.logs.filter (fun t => decide (dayStartLocalEpoch ctx.serverNow ctx.serverOffset ≤ t))).length

/-- Modelled from the spec (for comparison with `getTodayMessageCount`):
the spec's daily cap counts messages since "local midnight boundary in the
recipient's timezone". -/
def getTodayMessageCountRecipientTz (ctx : SendContext) : Nat :=
  (ctx.logs.filter (fun t => decide (dayStartLocalEpoch ctx.serverNow ctx.recipientOffset ≤ t))).length

/-- Result object of `applyPreferences` (`reschedule` is the computed
next-available epoch minute when in quiet hours). -/
structure SendDecision where
  send : Bool
  reason : Option String
  reschedule : Option Int
deriving DecidableEq, Repr

/-- Caller-supplied `frequency` section of an update.  `none` means the
key is absent; `digest` carries the raw string (the source guards it with
a JS truthiness test, so the empty string counts as absent). -/
structure FrequencyUpdate where
  digest : Option String
  max_per_day : Option Int
  quiet_hours : Option QuietHours
deriving DecidableEq, Repr

/-- A caller-supplied preference update (`req.body` of the PUT route, or
the records built by `unsubscribeAll` and friends).  Channel and category
entries carry `Option Bool`: `some b` is a boolean value, `none` a
non-boolean value, which `validatePreferences` skips (its
`typeof === 'boolean'` test).  `validatePreferences` never reads an
update's `unsubscribed` or `language` keys, so they are not represented. -/
structure PrefUpdate where
  channels : Option (List (String × Option Bool))
  categories : Option (List (String × Option Bool))
  frequency : Option FrequencyUpdate
deriving DecidableEq, Repr

/-- Entries of an update section that pass the `typeof === 'boolean'`
check, in key order. -/
def boolEntries (es : List (String × Option Bool)) : List (String × Bool) :=
  es.filterMap fun e =>
    match e.2 with
    | some b => some (e.1, b)
    | none => none

/-- The required-category override inside `validatePreferences`: entries
for `security` or `billing` are written as `true` whatever the caller
sent. -/
def forceRequired (es : List (String × Bool)) : List (String × Bool) :=
  es.map fun e => if e.1 = "security" ∨ e.1 = "billing" then (e.1, true) else e

/-- `Math.max(1, Math.min(100, n))` from `validatePreferences`. -/
def clampMaxPerDay (n : Int) : Int := max 1 (min 100 n)

/-- `validatePreferences` from the source.  The source starts from
`validated = { ...this.defaultPreferences }` — a SHALLOW copy, so the
nested `channels`/`categories`/`frequency` objects it then mutates are the
manager's default objects themselves.  Value-wise the manager's defaults
after a call equal the returned record (the top-level scalars
`unsubscribed` and `language` are never written), so the evolving shared
state is embedded by passing the current `defaults` in and using the
result as the next `defaults`.  Note the source never copies the update's
`unsubscribed` or `language` keys: the output keeps the defaults'
values. -/
def validatePreferences (defaults : Prefs) (u : PrefUpdate) : Prefs :=
  { channels :=
      match u.channels with
      | some es => KV.setAll defaults.channels (boolEntries es)
      | none => defaults.channels
    categories :=
      match u.categories with
      | some es => KV.setAll defaults.categories (forceRequired (boolEntries es))
      | none => defaults.categories
    frequency :=
      match u.frequency with
      | some fu =>
        { digest :=
            match fu.digest with
            | some d => if d = "" then defaults.frequency.digest else d
            | none => defaults.frequency.digest
          max_per_day :=
            match fu.max_per_day with
            | some n => clampMaxPerDay n
            | none => defaults.frequency.max_per_day
          quiet_hours := (fu.quiet_hours).getD defaults.frequency.quiet_hours }
      | none => defaults.frequency
    language := defaults.language
    unsubscribed := defaults.unsubscribed }

/-- The nested `quiet_hours` object of a stored preference record as the
Courier API may return it: every key optional. -/
structure StoredQuietHours where
  enabled : Option Bool
  start : Option String
  end_ : Option String
  timezone : Option String
deriving DecidableEq, Repr

/-- The `frequency` section of a stored preference record. -/
structure StoredFrequency where
  digest : Option String
  max_per_day : Option Int
  quiet_hours : Option StoredQuietHours
deriving DecidableEq, Repr

/-- A stored preference record (argument of `mergeWithDefaults`): any key
may be absent. -/
structure StoredPrefs where
  channels : Option (List (String × Bool))
  categories : Option (List (String × Bool))
  frequency : Option StoredFrequency
  language : Option String
  unsubscribed : Option Bool
deriving DecidableEq, Repr

/-- The `quiet_hours: {...defaults.frequency.quiet_hours,
...preferences.frequency?.quiet_hours}` spread of `mergeWithDefaults`. -/
def mergeQuietHours (d : QuietHours) (s : StoredQuietHours) : QuietHours :=
  { enabled := s.enabled.getD d.enabled
    start := s.start.getD d.start
    end_ := s.end_.getD d.end_
    timezone := s.timezone.getD d.timezone }

/-- `mergeWithDefaults` from the source: stored values override the
defaults, with `channels`, `categories` and `frequency` merged one object
level deep (and `frequency.quiet_hours` merged in turn). -/
def mergeWithDefaults (defaults : Prefs) (p : StoredPrefs) : Prefs :=
  { channels := KV.setAll defaults.channels (p.channels.getD [])
    categories := KV.setAll defaults.categories (p.categories.getD [])
    frequency :=
      { digest := ((p.frequency.bind (·.digest)).getD defaults.frequency.digest)
        max_per_day := ((p.frequency.bind (·.max_per_day)).getD defaults.frequency.max_per_day)
        quiet_hours :=
          mergeQuietHours defaults.frequency.quiet_hours
            ((p.frequency.bind (·.quiet_hours)).getD ⟨none, none, none, none⟩) }
    language := p.language.getD defaults.language
    unsubscribed := p.unsubscribed.getD defaults.unsubscribed }

/-- View of a full record as a stored record with every key present (what
`courier.preferences.update` persisted after a validation). -/
def toStored (p : Prefs) : StoredPrefs :=
  { channels := some p.channels
    categories := some p.categories
    frequency := some
      { digest := some p.frequency.digest
        max_per_day := some p.frequency.max_per_day
        quiet_hours := some
          { enabled := some p.frequency.quiet_hours.enabled
            start := some p.frequency.quiet_hours.start
            end_ := some p.frequency.quiet_hours.end_
            timezone := some p.frequency.quiet_hours.timezone } }
    language := some p.language
    unsubscribed := some p.unsubscribed }

/-- View of a full preference record as the update object that
`updatePreferences` receives when a caller (such as `unsubscribeAll`)
passes a whole fetched record: every channel/category value is a boolean
and every frequency key is present.  (`unsubscribed` and `language` are
present in the JS object too but `validatePreferences` never reads them.) -/
def prefsToUpdate (p : Prefs) : PrefUpdate :=
  { channels := some (p.channels.map fun e => (e.1, some e.2))
    categories := some (p.categories.map fun e => (e.1, some e.2))
    frequency := some
      { digest := some p.frequency.digest
        max_per_day := some p.frequency.max_per_day
        quiet_hours := some p.frequency.quiet_hours } }

/-- The preference record `unsubscribeAll` hands to `updatePreferences`
for a user whose stored record is `sp`: the fetched effective record with
`unsubscribed` set and every channel disabled. -/
def unsubscribeAllRequest (defaults : Prefs) (sp : StoredPrefs) : Prefs :=
  let prefs := mergeWithDefaults defaults sp
  { prefs with
    unsubscribed := true
    channels := prefs.channels.map fun e => (e.1, false) }

/-- The record `updatePreferences` validates, stores, and immediately
evaluates (`applyPreferences`) when `unsubscribeAll` runs for a user with
stored record `sp`. -/
def unsubscribeAllValidated (defaults : Prefs) (sp : StoredPrefs) : Prefs :=
  validatePreferences defaults (prefsToUpdate (unsubscribeAllRequest defaults sp))

/-- `applyPreferences` from the source: unsubscribe check, then quiet
hours, then the daily cap. -/
def applyPreferences (p : Prefs) (ctx : SendContext) : SendDecision :=
  if p.unsubscribed then
    { send := false, reason := some "user_unsubscribed", reschedule := none }
  else if isQuietHours p.frequency.quiet_hours ctx.localTime then
    { send := false, reason := some "quiet_hours"
      reschedule := some (getNextAvailableTime p.frequency.quiet_hours ctx.serverNow ctx.serverOffset) }
  else if p.frequency.max_per_day ≤ (getTodayMessageCount ctx : Int) then
    { send := false, reason := some "daily_limit_reached", reschedule := none }
  else
    { send := true, reason := none, reschedule := none }

end UserPrefs

namespace Escalation

/-- The profile fields `SlackEscalation` (in `src/unnamed/part_005`)
reads and writes.  `days_since_signup` is a number trait; `escalated`
defaults to false for a never-escalated profile (JS reads a missing key as
the falsy `undefined`). -/
structure EscProfile where
  plan : String
  onboarding_status : String
  days_since_signup : Int
  escalated : Bool
  escalation_count : Int
deriving DecidableEq, Repr

/-- The escalation criteria of `checkAndEscalate`. -/
def shouldEscalate (p : EscProfile) : Bool :=
  decide (p.plan = "enterprise") &&
  !decide (p.onboarding_status = "completed") &&
  decide (p.days_since_signup > 3) &&
  !p.escalated

/-- `markAsEscalated` from the source.  Its merge object reads
`profile.escalation_count`, but `profile` is not a variable in scope
there: it is a local constant of `checkAndEscalate`, and no module-level
`profile` exists in the file.  Evaluating the object literal therefore
throws `ReferenceError: profile is not defined` before
`courier.profiles.merge` is called, so no profile field (not even
`escalated: true`) is ever written. -/
def markAsEscalated : Except String (EscProfile → EscProfile) :=
  Except.error "ReferenceError: profile is not defined"

/-- Observable outcome of one `checkAndEscalate` call: how many Slack
alerts `sendSlackAlert` emitted, the stored profile afterwards, and the
value the returned promise settles with (`Except.error` = rejected). -/
structure EscResult where
  alerts : Nat
  profile : EscProfile
  outcome : Except String Bool
deriving Repr

/-- `checkAndEscalate` from the source: when the criteria hold it first
awaits `sendSlackAlert` (one alert goes out), then awaits
`markAsEscalated`; an exception there rejects the call after the alert was
already sent. -/
def checkAndEscalate (p : EscProfile) : EscResult :=
  if shouldEscalate p then
    match markAsEscalated with
    | Except.ok f => { alerts := 1, profile := f p, outcome := Except.ok true }
    | Except.error e => { alerts := 1, profile := p, outcome := Except.error e }
  else
    { alerts := 0, profile := p, outcome := Except.ok false }

end Escalation

namespace Webhook

/-- JSON values (`req.body` after the body middleware, webhook event
payloads). -/
inductive Json where
  | null
  | bool (b : Bool)
  | num (n : Int)
  | str (s : String)
  | arr (xs : List Json)
  | obj (fields : List (String × Json))

/-- The character `{` (kept out of literals for the benefit of simple
tooling). -/
def objOpen : Char := Char.ofNat 123

/-- The character `}`. -/
def objClose : Char := Char.ofNat 125

/-- A double-quoted JSON string (payload strings here contain no
characters that need escaping). -/
def quoteStr (s : String) : String := "\"" ++ s ++ "\""

mutual

/-- Models `JSON.stringify` on parsed bodies: no whitespace, object keys
in insertion order, integers in decimal. -/
def stringifyJson : Json → String
  | Json.null => "null"
  | Json.bool true => "true"
  | Json.bool false => "false"
  | Json.num n => toString n
  | Json.str s => quoteStr s
  | Json.arr xs => "[" ++ stringifyArr xs ++ "]"
  | Json.obj fs => String.singleton objOpen ++ stringifyObj fs ++ String.singleton objClose

/-- Comma-separated serialization of array elements. -/
def stringifyArr : List Json → String
  | [] => ""
  | [x] => stringifyJson x
  | x :: y :: xs => stringifyJson x ++ "," ++ stringifyArr (y :: xs)

/-- Comma-separated serialization of object members. -/
def stringifyObj : List (String × Json) → String
  | [] => ""
  | [f] => quoteStr f.1 ++ ":" ++ stringifyJson f.2
  | f :: g :: fs => quoteStr f.1 ++ ":" ++ stringifyJson f.2 ++ "," ++ stringifyObj (g :: fs)

end

/-- Drop leading JSON whitespace. -/
def skipWs : List Char → List Char
  | [] => []
  | c :: cs => if c = ' ' ∨ c = '\n' ∨ c = '\t' ∨ c = '\r' then skipWs cs else c :: cs

/-- Body of a JSON string after the opening quote (no escape sequences,
as used by the payloads considered here). -/
def parseStringBody : List Char → Option (String × List Char)
  | [] => none
  | c :: cs =>
    if c = '"' then some ("", cs)
    else
      match parseStringBody cs with
      | some (s, rest) => some (String.singleton c ++ s, rest)
      | none => none

/-- Decimal digits to a number. -/
def digitsToNat (ds : List Char) : Nat :=
  ds.foldl (fun n c => n * 10 + (c.toNat - 48)) 0

/-- A non-empty run of decimal digits. -/
def parseNatTok (cs : List Char) : Option (Nat × List Char) :=
  let ds := cs.takeWhile Char.isDigit
  if ds.isEmpty then none else some (digitsToNat ds, cs.drop ds.length)

/-- Expect the exact characters `lit`. -/
def parseLit (lit : List Char) (cs : List Char) : Option (List Char) :=
  if lit.isPrefixOf cs then some (cs.drop lit.length) else none

mutual

/-- Recursive-descent JSON value parser (fuel-bounded), modelling the
parse the `express.json()` middleware performs on the raw request bytes
before the route handler runs. -/
def parseValue : Nat → List Char → Option (Json × List Char)
  | 0, _ => none
  | Nat.succ fuel, cs =>
    match skipWs cs with
    | [] => none
    | c :: rest =>
      if c = '"' then
        match parseStringBody rest with
        | some (s, r) => some (Json.str s, r)
        | none => none
      else if c = objOpen then
        match skipWs rest with
        | c2 :: r2 =>
          if c2 = objClose then some (Json.obj [], r2)
          else
            match parseMembers fuel (c2 :: r2) with
            | some (ms, r) => some (Json.obj ms, r)
            | none => none
        | [] => none
      else if c = '[' then
        match skipWs rest with
        | ']' :: r2 => some (Json.arr [], r2)
        | cs2 =>
          match parseElements fuel cs2 with
          | some (vs, r) => some (Json.arr vs, r)
          | none => none
      else if c = 't' then (parseLit ['r', 'u', 'e'] rest).map (fun r => (Json.bool true, r))
      else if c = 'f' then (parseLit ['a', 'l', 's', 'e'] rest).map (fun r => (Json.bool false, r))
      else if c = 'n' then (parseLit ['u', 'l', 'l'] rest).map (fun r => (Json.null, r))
      else if c = '-' then
        match parseNatTok rest with
        | some (n, r) => some (Json.num (-(n : Int)), r)
        | none => none
      else if c.isDigit then
        match parseNatTok (c :: rest) with
        | some (n, r) => some (Json.num (n : Int), r)
        | none => none
      else none

/-- Members of a JSON object after the opening brace (at least one). -/
def parseMembers : Nat → List Char → Option (List (String × Json) × List Char)
  | 0, _ => none
  | Nat.succ fuel, cs =>
    match skipWs cs with
    | [] => none
    | c :: rest =>
      if c = '"' then
        match parseStringBody rest with
        | some (k, r1) =>
          match skipWs r1 with
          | ':' :: r2 =>
            match parseValue fuel r2 with
            | some (v, r3) =>
              match skipWs r3 with
              | [] => none
              | c2 :: r4 =>
                if c2 = ',' then
                  match parseMembers fuel r4 with
                  | some (ms, r5) => some ((k, v) :: ms, r5)
                  | none => none
                else if c2 = objClose then some ([(k, v)], r4)
                else none
            | none => none
          | _ => none
        | none => none
      else none

/-- Elements of a JSON array after the opening bracket (at least one). -/
def parseElements : Nat → List Char → Option (List Json × List Char)
  | 0, _ => none
  | Nat.succ fuel, cs =>
    match parseValue fuel cs with
    | some (v, r1) =>
      match skipWs r1 with
      | ',' :: r2 =>
        match parseElements fuel r2 with
        | some (vs, r3) => some (v :: vs, r3)
        | none => none
      | ']' :: r2 => some ([v], r2)
      | _ => none
    | none => none

end

/-- Parse a whole JSON document. -/
def parseJson (s : String) : Option Json :=
  match parseValue (s.length + 1) s.data with
  | some (j, rest) => if (skipWs rest).isEmpty then some j else none
  | none => none

/-- JSON documents the default (strict) `express.json()` accepts:
objects and arrays. -/
def isObjOrArr : Json → Bool
  | Json.obj _ => true
  | Json.arr _ => true
  | _ => false

/-- The body the route handler receives for raw request bytes `raw`:
the middleware's parse of the raw bytes, performed before the handler
(and before the signature check) runs. -/
def expressJsonBody (raw : String) : Option Json :=
  match parseJson raw with
  | some j => if isObjOrArr j then some j else none
  | none => none

/-- Values kept in Courier recipient profiles by the handlers of
`src/unnamed/part_002`: strings, numbers, booleans, string lists, and raw
JSON (for `notification_preferences`/`communication_strategy`).  ISO
timestamp writes of `new Date()` are embedded as epoch milliseconds
(`PVal.i`). -/
inductive PVal where
  | s (v : String)
  | i (v : Int)
  | b (v : Bool)
  | ls (v : List String)
  | j (v : Json)

/-- A recipient profile: a JS object of profile fields. -/
def Profile := List (String × PVal)

/-- Observable state the webhook handlers read and write: the profile
store and, as append-only journals, the analytics log, the
`courier.send` calls, the `setTimeout`-scheduled follow-up sends (delay in
ms), the `courier.automations.invoke` calls, and the scheduled message
retries (backoff delay in ms, message id). -/
structure EngineState where
  profiles : List (String × Profile)
  analytics : List String
  sends : List (String × String × List String)
  scheduledSends : List (Nat × String × String)
  invokes : List (String × String)
  retries : List (Nat × String)

/-- The state before any event is ingested. -/
def EngineState.empty : EngineState := ⟨[], [], [], [], [], []⟩

/-- `courier.profiles.get(uid)`: an unknown recipient reads as an empty
profile. -/
def getProfile (st : EngineState) (uid : String) : Profile :=
  (KV.get st.profiles uid).getD []

/-- `courier.profiles.merge`: shallow field-level merge into the stored
profile. -/
def profilesMerge (st : EngineState) (uid : String) (fields : List (String × PVal)) : EngineState :=
  { st with profiles := KV.set st.profiles uid (KV.setAll (getProfile st uid) fields) }

/-- `logAnalyticsEvent` (a `console.log` in the source): journal the event
name. -/
def logAnalyticsEvent (st : EngineState) (event : String) : EngineState :=
  { st with analytics := st.analytics ++ [event] }

/-- A `courier.send` call: template, target, requested channels. -/
def courierSend (st : EngineState) (template target : String) (channels : List String) : EngineState :=
  { st with sends := st.sends ++ [(template, target, channels)] }

/-- A `courier.automations.invoke` call. -/
def invokeAutomation (st : EngineState) (automation uid : String) : EngineState :=
  { st with invokes := st.invokes ++ [(automation, uid)] }

/-- Object property access `j[k]` on a parsed body. -/
def getField (j : Json) (k : String) : Option Json :=
  match j with
  | Json.obj fs => KV.get fs k
  | _ => none

/-- A string-valued field. -/
def getStr (j : Json) (k : String) : Option String :=
  match getField j k with
  | some (Json.str s) => some s
  | _ => none

/-- A destructured string field; a missing field is JS `undefined`, which
renders as `"undefined"` when spliced into a template literal or object
key. -/
def getStrD (j : Json) (k : String) : String := (getStr j k).getD "undefined"

/-- `profile[k] || 0` for the numeric counters the handlers keep. -/
def profileInt (p : Profile) (k : String) : Int :=
  match KV.get p k with
  | some (PVal.i n) => n
  | _ => 0

/-- `updateUserEngagement` from the source: increment the per-channel
per-action counter and stamp `last_engagement`. -/
def updateUserEngagement (now : Int) (st : EngineState) (userId action channel : String) : EngineState :=
  let engagementKey := channel ++ "_" ++ action ++ "_count"
  let currentCount := profileInt (getProfile st userId) engagementKey
  profilesMerge st userId [(engagementKey, PVal.i (currentCount + 1)), ("last_engagement", PVal.i now)]

/-- The per-recipient engagement counter a `message:sent` event bumps
(reads 0 when absent, like the source's `|| 0`). -/
def engagementCount (st : EngineState) (userId channel action : String) : Int :=
  profileInt (getProfile st userId) (channel ++ "_" ++ action ++ "_count")

/-- `calculateEngagementScore` from the source.  A missing
`last_engagement` gives an invalid JS date whose comparisons are all
false, so no recency bonus. -/
def calculateEngagementScore (now : Int) (p : Profile) : Int :=
  let score : Int := 0
  let score := if profileInt p "email_opened_count" > 0 then score + 20 else score
  let score := if profileInt p "email_clicked_count" > 0 then score + 30 else score
  let score := if profileInt p "inbox_read_count" > 0 then score + 25 else score
  let score :=
    match KV.get p "last_engagement" with
    | some (PVal.i t) =>
      if now - t < 86400000 then score + 25
      else if now - t < 7 * 86400000 then score + 15
      else score
    | _ => score
  min score 100

/-- The `followUpMap` table of `checkForFollowUpActions`. -/
def followUpMap (template : String) : Option String :=
  if template = "welcome-email" then some "onboarding-day-2"
  else if template = "trial-halfway" then some "trial-urgency"
  else if template = "feature-announcement" then some "feature-tutorial"
  else none

/-- `checkForFollowUpActions`: schedule the mapped follow-up send 24 hours
out (the `setTimeout`). -/
def checkForFollowUpActions (st : EngineState) (userId template : String) : EngineState :=
  match followUpMap template with
  | some next => { st with scheduledSends := st.scheduledSends ++ [(86400000, next, userId)] }
  | none => st

/-- Models `s.includes(sub)` for non-empty `sub`: `splitOn` yields more
than one piece exactly when `sub` occurs in `s`. -/
def strIncludes (s sub : String) : Bool := (s.splitOn sub).length != 1

/-- `handleMessageSent`. -/
def handleMessageSent (now : Int) (st : EngineState) (data : Json) : EngineState :=
  let recipientId := getStrD data "recipientId"
  let channel := getStrD data "channel"
  let st := logAnalyticsEvent st "message_sent"
  updateUserEngagement now st recipientId "message_sent" channel

/-- `handleMessageDelivered` (its `updateDeliveryMetrics` helper has an
empty body in the source). -/
def handleMessageDelivered (st : EngineState) (_data : Json) : EngineState :=
  logAnalyticsEvent st "message_delivered"

/-- `handleMessageOpened`: analytics, engagement merge (the score is
computed from the profile as read before the merge), then follow-up
scheduling. -/
def handleMessageOpened (now : Int) (st : EngineState) (data : Json) : EngineState :=
  let recipientId := getStrD data "recipientId"
  let template := getStrD data "template"
  let timestamp := getStrD data "timestamp"
  let st := logAnalyticsEvent st "message_opened"
  let score := calculateEngagementScore now (getProfile st recipientId)
  let st := profilesMerge st recipientId
    [("last_email_opened", PVal.s timestamp),
     ("email_engagement", PVal.s "active"),
     ("engagement_score", PVal.i score)]
  checkForFollowUpActions st recipientId template

/-- `handleMessageClicked`. -/
def handleMessageClicked (st : EngineState) (data : Json) : EngineState :=
  let recipientId := getStrD data "recipientId"
  let link := getStrD data "link"
  let timestamp := getStrD data "timestamp"
  let st := logAnalyticsEvent st "message_clicked"
  let st := profilesMerge st recipientId
    [("last_click", PVal.s timestamp),
     ("clicked_links", PVal.ls [link]),
     ("engagement_level", PVal.s "high")]
  if strIncludes link "/pricing" then invokeAutomation st "pricing-interest-nurture" recipientId
  else if strIncludes link "/demo" then invokeAutomation st "demo-scheduling-flow" recipientId
  else st

/-- `handleInvalidEmail`: mark the email invalid, then fall back to SMS
when the profile has a (truthy) phone number. -/
def handleInvalidEmail (st : EngineState) (userId : String) : EngineState :=
  let st := profilesMerge st userId [("email_valid", PVal.b false), ("email_bounce_type", PVal.s "hard")]
  match KV.get (getProfile st userId) "phone_number" with
  | some (PVal.s p) =>
    if p = "" then st
    else courierSend st "email-invalid-sms-fallback" userId ["sms"]
  | _ => st

/-- The fixed exponential-backoff sequence of `scheduleRetry`, in
milliseconds: 5 minutes, 30 minutes, 2 hours, 24 hours. -/
def retryDelays : List Nat := [300000, 1800000, 7200000, 86400000]

/-- `scheduleRetry` from the source.  The `setTimeout` callback (the
`courier.messages.retry` call and the retry-count merge) is embedded as
having fired: the returned state already records the scheduled retry with
its backoff delay and the incremented per-message retry count. -/
def scheduleRetry (st : EngineState) (messageId userId : String) : EngineState :=
  let key := "message_" ++ messageId ++ "_retry_count"
  let retryCount := profileInt (getProfile st userId) key
  if retryCount < (retryDelays.length : Int) then
    let delay := (retryDelays.get? retryCount.toNat).getD 0
    let st := { st with retries := st.retries ++ [(delay, messageId)] }
    profilesMerge st userId [(key, PVal.i (retryCount + 1))]
  else st

/-- The stored retry count for a message. -/
def retryCountOf (st : EngineState) (userId messageId : String) : Int :=
  profileInt (getProfile st userId) ("message_" ++ messageId ++ "_retry_count")

/-- Number of retries scheduled so far for a message. -/
def retriesFor (st : EngineState) (messageId : String) : Nat :=
  (st.retries.filter (fun r => decide (r.2 = messageId))).length

/-- `handleUnsubscribe`. -/
def handleUnsubscribe (now : Int) (st : EngineState) (userId channel : String) : EngineState :=
  profilesMerge st userId
    [(channel ++ "_unsubscribed", PVal.b true), (channel ++ "_unsubscribed_at", PVal.i now)]

/-- `notifyOpsTeam`: a `courier.send` to the ops Slack channel. -/
def notifyOpsTeam (st : EngineState) : EngineState :=
  courierSend st "ops-alert" "#ops-alerts" []

/-- `handleMessageUndeliverable`: analytics, then the reason switch;
`invalid_email`/`hard_bounce` are never retried, `soft_bounce`/
`temporary_failure` go to `scheduleRetry`. -/
def handleMessageUndeliverable (now : Int) (st : EngineState) (data : Json) : EngineState :=
  let messageId := getStrD data "messageId"
  let recipientId := getStrD data "recipientId"
  let channel := getStrD data "channel"
  let reason := getStrD data "reason"
  let st := logAnalyticsEvent st "message_failed"
  if reason = "invalid_email" ∨ reason = "hard_bounce" then handleInvalidEmail st recipientId
  else if reason = "soft_bounce" ∨ reason = "temporary_failure" then scheduleRetry st messageId recipientId
  else if reason = "unsubscribed" then handleUnsubscribe now st recipientId channel
  else notifyOpsTeam st

/-- `calculateProgress`: completed onboarding tasks out of three, as a
percentage (the JS float is rounded down here). -/
def calculateProgress (p : Profile) : Int :=
  let tasks := ["complete-profile", "invite-team", "create-project"]
  let completed := (tasks.filter fun t =>
    match KV.get p ("task_" ++ t ++ "_completed") with
    | some (PVal.b true) => true
    | _ => false).length
  ((completed : Int) * 100) / 3

/-- The `milestones` table of `checkMilestones`. -/
def milestoneFor (taskId : String) : Option (Int × String) :=
  if taskId = "complete-profile" then some (10, "Profile Pro")
  else if taskId = "invite-team" then some (20, "Team Builder")
  else if taskId = "create-project" then some (30, "Project Master")
  else none

/-- `checkMilestones`: celebratory send when the completed task is a
milestone. -/
def checkMilestones (st : EngineState) (userId taskId : String) : EngineState :=
  match milestoneFor taskId with
  | some _ => courierSend st "milestone-achieved" userId ["inbox", "email"]
  | none => st

/-- `handleInboxRead`: analytics, then (when the event carries a task id)
the task-completion merge — with the progress computed from the profile as
read before the merge — and the milestone check. -/
def handleInboxRead (st : EngineState) (data : Json) : EngineState :=
  let recipientId := getStrD data "recipientId"
  let timestamp := getStrD data "timestamp"
  let st := logAnalyticsEvent st "inbox_task_completed"
  let profile := getProfile st recipientId
  match (getField data "metadata").bind (fun m => getStr m "task_id") with
  | some taskId =>
    let st := profilesMerge st recipientId
      [("task_" ++ taskId ++ "_completed", PVal.b true),
       ("task_" ++ taskId ++ "_completed_at", PVal.s timestamp),
       ("onboarding_progress", PVal.i (calculateProgress profile))]
    checkMilestones st recipientId taskId
  | none => st

/-- `handleInboxArchived`. -/
def handleInboxArchived (st : EngineState) (_data : Json) : EngineState :=
  logAnalyticsEvent st "inbox_message_archived"

/-- JS truthiness of a JSON value. -/
def jsTruthy : Json → Bool
  | Json.null => false
  | Json.bool b => b
  | Json.num n => decide (n ≠ 0)
  | Json.str s => decide (s ≠ "")
  | Json.arr _ => true
  | Json.obj _ => true

/-- `adjustCommunicationStrategy`: build the strategy object with `||`
defaults and merge it into the profile. -/
def adjustCommunicationStrategy (st : EngineState) (userId : String) (preferences : Json) : EngineState :=
  let pick := fun (k : String) (dflt : Json) =>
    match getField preferences k with
    | some v => if jsTruthy v then v else dflt
    | none => dflt
  let strategy := Json.obj
    [("frequency", pick "frequency" (Json.str "normal")),
     ("channels", pick "channels" (Json.arr [Json.str "email"])),
     ("quiet_hours", pick "quiet_hours" (Json.bool false))]
  profilesMerge st userId [("communication_strategy", PVal.j strategy)]

/-- `handlePreferencesUpdated`. -/
def handlePreferencesUpdated (st : EngineState) (data : Json) : EngineState :=
  let recipientId := getStrD data "recipientId"
  let preferences := (getField data "preferences").getD Json.null
  let timestamp := getStrD data "timestamp"
  let st := logAnalyticsEvent st "preferences_updated"
  let st := profilesMerge st recipientId
    [("notification_preferences", PVal.j preferences),
     ("preferences_updated_at", PVal.s timestamp)]
  adjustCommunicationStrategy st recipientId preferences

/-- The `automationSequence` table of `triggerNextAutomation`. -/
def automationSequence (a : String) : Option String :=
  if a = "onboarding-welcome-flow" then some "onboarding-activation-flow"
  else if a = "trial-nurture-sequence" then some "trial-conversion-sequence"
  else if a = "feature-education-flow" then some "advanced-features-flow"
  else none

/-- `triggerNextAutomation`. -/
def triggerNextAutomation (st : EngineState) (userId completedAutomation : String) : EngineState :=
  match automationSequence completedAutomation with
  | some next => invokeAutomation st next userId
  | none => st

/-- `handleAutomationCompleted`. -/
def handleAutomationCompleted (st : EngineState) (data : Json) : EngineState :=
  let automationId := getStrD data "automationId"
  let recipientId := getStrD data "recipientId"
  let st := logAnalyticsEvent st "automation_completed"
  triggerNextAutomation st recipientId automationId

/-- `isCriticalAutomation`. -/
def isCriticalAutomation (automationId : String) : Bool :=
  ["enterprise-onboarding-flow", "payment-processing-flow", "security-alert-flow"].contains automationId

/-- `handleAutomationFailed` (its `attemptAutomationRecovery` helper has
an empty body in the source). -/
def handleAutomationFailed (st : EngineState) (data : Json) : EngineState :=
  let automationId := getStrD data "automationId"
  let st := logAnalyticsEvent st "automation_failed"
  if isCriticalAutomation automationId then notifyOpsTeam st else st

/-- The `switch (type)` dispatch of the route handler.  Unknown types are
logged and acknowledged, changing nothing. -/
def dispatchEvent (now : Int) (st : EngineState) (type_ : String) (data : Json) : EngineState :=
  if type_ = "message:sent" then handleMessageSent now st data
  else if type_ = "message:delivered" then handleMessageDelivered st data
  else if type_ = "message:opened" then handleMessageOpened now st data
  else if type_ = "message:clicked" then handleMessageClicked st data
  else if type_ = "message:undeliverable" then handleMessageUndeliverable now st data
  else if type_ = "inbox:read" then handleInboxRead st data
  else if type_ = "inbox:archived" then handleInboxArchived st data
  else if type_ = "preferences:updated" then handlePreferencesUpdated st data
  else if type_ = "automation:completed" then handleAutomationCompleted st data
  else if type_ = "automation:failed" then handleAutomationFailed st data
  else st

/-- `crypto.timingSafeEqual`: constant-time comparison, which throws when
the two inputs have different byte lengths. -/
def timingSafeEqual (a b : String) : Except String Bool :=
  if a.length = b.length then Except.ok (decide (a = b))
  else Except.error "RangeError: Input buffers must have the same byte length"

/-- `verifyWebhookSignature` from the source, parameterized by the
HMAC-SHA256 primitive `hmac secret payload` (an external crypto
routine that returns the hex digest). -/
def verifyWebhookSignature (hmac : String → String → String) (payload signature secret : String) :
    Except String Bool :=
  timingSafeEqual signature (hmac secret payload)

/-- A route's observable HTTP outcome (`thrown` = a synchronous exception
escaped the handler before the try block, as `timingSafeEqual` does on a
length mismatch). -/
inductive RouteOutcome where
  | response (status : Nat)
  | thrown
deriving DecidableEq, Repr

/-- The `POST /webhooks/courier` route.  `raw` is the raw request body;
the JSON body middleware parses it BEFORE the handler runs, and the
handler then verifies the signature against `JSON.stringify(req.body)` —
the re-serialization of the already parsed body, not the raw bytes. -/
def courierWebhookRoute (hmac : String → String → String) (secret : String) (now : Int)
    (raw signature : String) (st : EngineState) : RouteOutcome × EngineState :=
  match expressJsonBody raw with
  | none => (RouteOutcome.response 400, st)
  | some body =>
    match verifyWebhookSignature hmac (stringifyJson body) signature secret with
    | Except.error _ => (RouteOutcome.thrown, st)
    | Except.ok false => (RouteOutcome.response 401, st)
    | Except.ok true =>
      let type_ := getStrD body "type"
      let data := (getField body "data").getD Json.null
      (RouteOutcome.response 200, dispatchEvent now st type_ data)

/-- The exact byte string over which the route computes the expected HMAC
for raw request body `raw` (when the body parses). -/
def verifiedString (raw : String) : Option String :=
  (expressJsonBody raw).map stringifyJson

/-- A `message:sent` event payload, for exercising the handlers. -/
def sentEvent (messageId recipientId template channel : String) : Json :=
  Json.obj [("messageId", Json.str messageId), ("recipientId", Json.str recipientId),
            ("template", Json.str template), ("channel", Json.str channel)]

/-- A `message:undeliverable` event payload with the given reason. -/
def undeliverableEvent (messageId recipientId channel reason : String) : Json :=
  Json.obj [("messageId", Json.str messageId), ("recipientId", Json.str recipientId),
            ("channel", Json.str channel), ("reason", Json.str reason)]

end Webhook

/-! Association-list lemmas used by the preference proofs. -/

namespace KV

variable {α : Type}

theorem orD_self_absorb (a b : Option α) : orD a (orD a b) = orD a b := by
  cases a <;> simp [orD]

theorem keys_cons (e : String × α) (t : List (String × α)) :
    keys (e :: t) = e.1 :: keys t := rfl

theorem wf_cons (e : String × α) (t : List (String × α)) (h : WF (e :: t)) :
    e.1 ∉ keys t ∧ WF t := by
  rw [WF, keys_cons, List.nodup_cons] at h
  exact h

theorem get_set (l : List (String × α)) (k k' : String) (v : α) :
    get (set l k v) k' = if k = k' then some v else get l k' := by
  induction l with
  | nil => by_cases h : k = k' <;> simp [set, get, h]
  | cons e t ih =>
    by_cases he : e.1 = k
    · by_cases h : k = k' <;> simp [set, get, he, h]
    · by_cases h : k = k'
      · subst h
        simp [set, get, he, ih]
      · simp [set, get, he, h, ih]

theorem get_setAll (l : List (String × α)) (es : List (String × α)) (k : String) :
    get (setAll l es) k = orD (getLast es k) (get l k) := by
  induction es generalizing l with
  | nil => simp [setAll, getLast, orD]
  | cons e t ih =>
    show get (setAll (set l e.1 e.2) t) k = _
    rw [ih]
    cases hlast : getLast t k with
    | some v => simp [getLast, hlast, orD]
    | none =>
      rw [get_set]
      by_cases he : e.1 = k <;> simp [getLast, hlast, he, orD]

theorem mem_keys_iff_get (l : List (String × α)) (k : String) :
    k ∈ keys l ↔ (get l k).isSome := by
  induction l with
  | nil => simp [keys, get]
  | cons e t ih =>
    rw [keys_cons, List.mem_cons]
    by_cases he : e.1 = k
    · simp [get, he]
    · have hke : ¬ k = e.1 := fun h => he h.symm
      rw [get, if_neg he, ← ih]
      simp [hke]

theorem keys_set_mem (l : List (String × α)) (k : String) (v : α) (h : k ∈ keys l) :
    keys (set l k v) = keys l := by
  induction l with
  | nil => simp [keys] at h
  | cons e t ih =>
    by_cases he : e.1 = k
    · simp [set, he, keys_cons]
    · have h' : k ∈ keys t := by
        rw [keys_cons, List.mem_cons] at h
        exact h.resolve_left (fun h1 => he h1.symm)
      simp only [set, if_neg he, keys_cons, ih h']

theorem keys_set_not_mem (l : List (String × α)) (k : String) (v : α) (h : k ∉ keys l) :
    keys (set l k v) = keys l ++ [k] := by
  induction l with
  | nil => simp [set, keys]
  | cons e t ih =>
    rw [keys_cons, List.mem_cons] at h
    push_neg at h
    obtain ⟨hke, h'⟩ := h
    have he : e.1 ≠ k := fun hh => hke hh.symm
    simp only [set, if_neg he, keys_cons, ih h', List.cons_append]

theorem wf_set (l : List (String × α)) (k : String) (v : α) (h : WF l) : WF (set l k v) := by
  by_cases hk : k ∈ keys l
  · unfold WF
    rw [keys_set_mem l k v hk]
    exact h
  · unfold WF
    rw [keys_set_not_mem l k v hk]
    simpa [List.nodup_append] using ⟨h, hk⟩

theorem wf_setAll (l : List (String × α)) (es : List (String × α)) (h : WF l) :
    WF (setAll l es) := by
  induction es generalizing l with
  | nil => exact h
  | cons e t ih => exact ih (set l e.1 e.2) (wf_set l e.1 e.2 h)

theorem getLast_isSome_iff (es : List (String × α)) (k : String) :
    (getLast es k).isSome ↔ k ∈ keys es := by
  induction es with
  | nil => simp [getLast, keys]
  | cons e t ih =>
    rw [keys_cons, List.mem_cons]
    cases hlast : getLast t k with
    | some v =>
      have hmem : k ∈ keys t := ih.mp (by simp [hlast])
      have hstep : getLast (e :: t) k = some v := by simp [getLast, hlast]
      exact iff_of_true (by simp [hstep]) (Or.inr hmem)
    | none =>
      have hmem : k ∉ keys t := fun hk => by
        have hs := ih.mpr hk
        rw [hlast] at hs
        simp at hs
      have hstep : getLast (e :: t) k = if e.1 = k then some e.2 else none := by
        simp [getLast, hlast]
      by_cases he : e.1 = k
      · rw [hstep, if_pos he]
        exact iff_of_true (by simp) (Or.inl he.symm)
      · have hke : ¬ k = e.1 := fun h => he h.symm
        rw [hstep, if_neg he]
        exact iff_of_false (by simp) (by rintro (h | h); exacts [hke h, hmem h])

theorem mem_keys_setAll (l : List (String × α)) (es : List (String × α)) (k : String)
    (h : k ∈ keys es) : k ∈ keys (setAll l es) := by
  rw [mem_keys_iff_get, get_setAll]
  rcases Option.isSome_iff_exists.mp ((getLast_isSome_iff es k).mpr h) with ⟨v, hv⟩
  simp [hv, orD]

theorem keys_setAll_covered (l : List (String × α)) (es : List (String × α))
    (h : ∀ k ∈ keys es, k ∈ keys l) : keys (setAll l es) = keys l := by
  induction es generalizing l with
  | nil => rfl
  | cons e t ih =>
    have he : e.1 ∈ keys l := h e.1 (by simp [keys_cons])
    have step : keys (set l e.1 e.2) = keys l := keys_set_mem l e.1 e.2 he
    show keys (setAll (set l e.1 e.2) t) = keys l
    rw [ih (set l e.1 e.2) (fun k hk => by rw [step]; exact h k (by simp [keys_cons, hk])), step]

theorem ext (l₁ : List (String × α)) : ∀ (l₂ : List (String × α)), WF l₁ →
    keys l₁ = keys l₂ → (∀ k, get l₁ k = get l₂ k) → l₁ = l₂ := by
  induction l₁ with
  | nil =>
    intro l₂ _ hkeys _
    cases l₂ with
    | nil => rfl
    | cons e t => rw [keys_cons] at hkeys; exact absurd hkeys (by simp [keys])
  | cons e t ih =>
    intro l₂ hwf hkeys hget
    cases l₂ with
    | nil => rw [keys_cons] at hkeys; exact absurd hkeys (by simp [keys])
    | cons e' t' =>
      rw [keys_cons, keys_cons] at hkeys
      injection hkeys with hk htl
      obtain ⟨hnt, hwt⟩ := wf_cons e t hwf
      have hnt' : e.1 ∉ keys t' := htl ▸ hnt
      have hv : e.2 = e'.2 := by
        have h0 := hget e.1
        rw [get, get, if_pos rfl, if_pos hk.symm] at h0
        exact Option.some.inj h0
      have htails : t = t' := by
        apply ih t' hwt htl
        intro k
        by_cases hke : e.1 = k
        · subst hke
          have h1 : get t e.1 = none := by
            cases hg : get t e.1 with
            | none => rfl
            | some v => exact absurd ((mem_keys_iff_get t e.1).mpr (by simp [hg])) hnt
          have h2 : get t' e.1 = none := by
            cases hg : get t' e.1 with
            | none => rfl
            | some v => exact absurd ((mem_keys_iff_get t' e.1).mpr (by simp [hg])) hnt'
          rw [h1, h2]
        · have h0 := hget k
          rwa [get, get, if_neg hke, if_neg (hk ▸ hke)] at h0
      cases e; cases e'
      simp only at hk hv
      rw [hk, hv, htails]

theorem getLast_eq_get_of_wf (l : List (String × α)) (k : String) (h : WF l) :
    getLast l k = get l k := by
  induction l with
  | nil => rfl
  | cons e t ih =>
    obtain ⟨hnt, hwt⟩ := wf_cons e t h
    by_cases he : e.1 = k
    · subst he
      have hnone : getLast t e.1 = none := by
        cases hg : getLast t e.1 with
        | none => rfl
        | some v => exact absurd ((getLast_isSome_iff t e.1).mp (by simp [hg])) hnt
      simp [getLast, get, hnone]
    · simp only [getLast, get, if_neg he, ih hwt]
      cases hg : get t k <;> simp [he]

theorem setAll_idem (l : List (String × α)) (es : List (String × α)) (h : WF l) :
    setAll (setAll l es) es = setAll l es := by
  apply ext
  · exact wf_setAll (setAll l es) es (wf_setAll l es h)
  · exact keys_setAll_covered (setAll l es) es (fun k hk => mem_keys_setAll l es k hk)
  · intro k
    rw [get_setAll, get_setAll, orD_self_absorb]

theorem setAll_self (l : List (String × α)) (h : WF l) : setAll l l = l := by
  apply ext
  · exact wf_setAll l l h
  · exact keys_setAll_covered l l (fun k hk => hk)
  · intro k
    rw [get_setAll, getLast_eq_get_of_wf l k h]
    cases hg : get l k <;> simp [orD]

end KV

/-! Properties of the preference manager. -/

namespace UserPrefs

theorem prefs_ext (a b : Prefs) (h1 : a.channels = b.channels) (h2 : a.categories = b.categories)
    (h3 : a.frequency = b.frequency) (h4 : a.language = b.language)
    (h5 : a.unsubscribed = b.unsubscribed) : a = b := by
  cases a; cases b; simp_all

/-- C1: for the overnight default window `start="21:00"`, `end="09:00"`,
`isQuietHours` blocks at 23:30 (minute 1410), allows at 10:00 (600) and at
exactly 09:00 (540, exclusive end); in general, for every enabled window
it reports quiet hours exactly when the local time `t` satisfies
`t ≥ start ∨ t < end` for an overnight window (`start > end`) and
`start ≤ t < end` otherwise. -/
theorem quiet_hours_wrap_c1 :
    (isQuietHours defaultPreferences.frequency.quiet_hours 1410 = true ∧
     isQuietHours defaultPreferences.frequency.quiet_hours 600 = false ∧
     isQuietHours defaultPreferences.frequency.quiet_hours 540 = false) ∧
    ∀ (cfg : QuietHours) (t : Nat), cfg.enabled = true →
      (isQuietHours cfg t = true ↔
        (if parseHM cfg.start > parseHM cfg.end_ then
          parseHM cfg.start ≤ t ∨ t < parseHM cfg.end_
        else
          parseHM cfg.start ≤ t ∧ t < parseHM cfg.end_)) := by
  constructor
  · exact ⟨by decide, by decide, by decide⟩
  · intro cfg t henabled
    rw [isQuietHours, henabled]
    by_cases hgt : parseHM cfg.start > parseHM cfg.end_ <;> simp [hgt]

/-- Witness for C1 at the default window and minute 1410 (23:30). -/
theorem quiet_hours_wrap_c1_witness :
    isQuietHours defaultPreferences.frequency.quiet_hours 1410 = true ↔
      (if parseHM defaultPreferences.frequency.quiet_hours.start >
          parseHM defaultPreferences.frequency.quiet_hours.end_ then
        parseHM defaultPreferences.frequency.quiet_hours.start ≤ 1410 ∨
          1410 < parseHM defaultPreferences.frequency.quiet_hours.end_
      else
        parseHM defaultPreferences.frequency.quiet_hours.start ≤ 1410 ∧
          1410 < parseHM defaultPreferences.frequency.quiet_hours.end_) :=
  quiet_hours_wrap_c1.2 defaultPreferences.frequency.quiet_hours 1410 (by decide)

theorem getLast_forceRequired_req (es : List (String × Bool)) (k : String)
    (hk : k = "security" ∨ k = "billing") :
    KV.getLast (forceRequired es) k = none ∨ KV.getLast (forceRequired es) k = some true := by
  induction es with
  | nil => exact Or.inl rfl
  | cons e t ih =>
    have hcons : forceRequired (e :: t) =
        (if e.1 = "security" ∨ e.1 = "billing" then (e.1, true) else e) :: forceRequired t := rfl
    rw [hcons]
    rcases ih with h | h
    · by_cases hek : e.1 = k
      · refine Or.inr ?_
        simp [KV.getLast, h, hek, hk]
      · refine Or.inl ?_
        by_cases hreq : e.1 = "security" ∨ e.1 = "billing" <;>
          simp [KV.getLast, h, hreq, hek]
    · exact Or.inr (by simp [KV.getLast, h])

theorem validate_preserves_required (s : Prefs) (u : PrefUpdate) (k : String)
    (hk : k = "security" ∨ k = "billing")
    (h : KV.get s.categories k = some true) :
    KV.get (validatePreferences s u).categories k = some true := by
  cases hc : u.categories with
  | none => simpa [validatePreferences, hc] using h
  | some es =>
    have hcat : (validatePreferences s u).categories =
        KV.setAll s.categories (forceRequired (boolEntries es)) := by
      simp [validatePreferences, hc]
    rw [hcat, KV.get_setAll]
    rcases getLast_forceRequired_req (boolEntries es) k hk with hl | hl <;>
      simp [hl, KV.orD, h]

theorem foldl_validate_preserves_required (us : List PrefUpdate) (s : Prefs) (k : String)
    (hk : k = "security" ∨ k = "billing") (h : KV.get s.categories k = some true) :
    KV.get ((us.foldl validatePreferences s).categories) k = some true := by
  induction us generalizing s with
  | nil => exact h
  | cons u t ih => exact ih (validatePreferences s u) (validate_preserves_required s u k hk h)

/-- C4: whatever updates callers supply (any values, any number of
updates), the validated record keeps the `security` and `billing`
categories enabled: no update input can produce a record with either
disabled. -/
theorem required_categories_forced_c4 (us : List PrefUpdate) :
    KV.get ((us.foldl validatePreferences defaultPreferences).categories) "security" = some true ∧
    KV.get ((us.foldl validatePreferences defaultPreferences).categories) "billing" = some true :=
  ⟨foldl_validate_preserves_required us defaultPreferences "security" (Or.inl rfl) (by decide),
   foldl_validate_preserves_required us defaultPreferences "billing" (Or.inr rfl) (by decide)⟩

theorem clampMaxPerDay_bounds (n : Int) : 1 ≤ clampMaxPerDay n ∧ clampMaxPerDay n ≤ 100 := by
  unfold clampMaxPerDay
  constructor
  · exact le_max_left 1 _
  · exact max_le (by norm_num) (min_le_left _ _)

theorem validate_max_per_day_bounds (s : Prefs) (u : PrefUpdate)
    (h : 1 ≤ s.frequency.max_per_day ∧ s.frequency.max_per_day ≤ 100) :
    1 ≤ (validatePreferences s u).frequency.max_per_day ∧
    (validatePreferences s u).frequency.max_per_day ≤ 100 := by
  cases hf : u.frequency with
  | none => simpa [validatePreferences, hf] using h
  | some fu =>
    cases hm : fu.max_per_day with
    | none => simpa [validatePreferences, hf, hm] using h
    | some n => simpa [validatePreferences, hf, hm] using clampMaxPerDay_bounds n

theorem foldl_validate_max_per_day_bounds (us : List PrefUpdate) (s : Prefs)
    (h : 1 ≤ s.frequency.max_per_day ∧ s.frequency.max_per_day ≤ 100) :
    1 ≤ (us.foldl validatePreferences s).frequency.max_per_day ∧
    (us.foldl validatePreferences s).frequency.max_per_day ≤ 100 := by
  induction us generalizing s with
  | nil => exact h
  | cons u t ih => exact ih (validatePreferences s u) (validate_max_per_day_bounds s u h)

/-- C10: a `frequency.max_per_day` supplied as a number is clamped to
`[1, 100]` (`Math.max(1, Math.min(100, n))`), and every record validation
produces — starting from the built-in default of 10 and through any
sequence of updates — satisfies `1 ≤ max_per_day ≤ 100`. -/
theorem max_per_day_clamped_c10 :
    (∀ (s : Prefs) (u : PrefUpdate) (fu : FrequencyUpdate) (n : Int),
      u.frequency = some fu → fu.max_per_day = some n →
      (validatePreferences s u).frequency.max_per_day = clampMaxPerDay n ∧
      1 ≤ (validatePreferences s u).frequency.max_per_day ∧
      (validatePreferences s u).frequency.max_per_day ≤ 100) ∧
    (∀ us : List PrefUpdate,
      1 ≤ (us.foldl validatePreferences defaultPreferences).frequency.max_per_day ∧
      (us.foldl validatePreferences defaultPreferences).frequency.max_per_day ≤ 100) := by
  constructor
  · intro s u fu n hf hm
    have hb := clampMaxPerDay_bounds n
    have he : (validatePreferences s u).frequency.max_per_day = clampMaxPerDay n := by
      simp [validatePreferences, hf, hm]
    exact ⟨he, he ▸ hb.1, he ▸ hb.2⟩
  · intro us
    exact foldl_validate_max_per_day_bounds us defaultPreferences (by decide)

/-- Witness for C10: a supplied `max_per_day` of 500 is clamped into
range. -/
theorem max_per_day_clamped_c10_witness :
    (validatePreferences defaultPreferences
      { channels := none, categories := none,
        frequency := some { digest := none, max_per_day := some 500, quiet_hours := none } }).frequency.max_per_day =
      clampMaxPerDay 500 ∧
    1 ≤ (validatePreferences defaultPreferences
      { channels := none, categories := none,
        frequency := some { digest := none, max_per_day := some 500, quiet_hours := none } }).frequency.max_per_day ∧
    (validatePreferences defaultPreferences
      { channels := none, categories := none,
        frequency := some { digest := none, max_per_day := some 500, quiet_hours := none } }).frequency.max_per_day ≤ 100 :=
  max_per_day_clamped_c10.1 defaultPreferences _ _ 500 rfl rfl

theorem validate_idem (s : Prefs) (u : PrefUpdate) (hwc : KV.WF s.channels)
    (hwcat : KV.WF s.categories) :
    validatePreferences (validatePreferences s u) u = validatePreferences s u := by
  apply prefs_ext
  · cases hc : u.channels with
    | none => simp [validatePreferences, hc]
    | some es => simp [validatePreferences, hc, KV.setAll_idem _ _ hwc]
  · cases hcat : u.categories with
    | none => simp [validatePreferences, hcat]
    | some es => simp [validatePreferences, hcat, KV.setAll_idem _ _ hwcat]
  · cases hf : u.frequency with
    | none => simp [validatePreferences, hf]
    | some fu =>
      cases hd : fu.digest with
      | none =>
        cases hm : fu.max_per_day <;> cases hq : fu.quiet_hours <;>
          simp [validatePreferences, hf, hd, hm, hq]
      | some dg =>
        by_cases hde : dg = "" <;> cases hm : fu.max_per_day <;> cases hq : fu.quiet_hours <;>
          simp [validatePreferences, hf, hd, hm, hq, hde]
  · simp [validatePreferences]
  · simp [validatePreferences]

theorem merge_toStored_self (p : Prefs) (hwc : KV.WF p.channels) (hwcat : KV.WF p.categories) :
    mergeWithDefaults p (toStored p) = p := by
  apply prefs_ext
  · show KV.setAll p.channels p.channels = p.channels
    exact KV.setAll_self _ hwc
  · show KV.setAll p.categories p.categories = p.categories
    exact KV.setAll_self _ hwcat
  · simp [mergeWithDefaults, toStored, mergeQuietHours]
  · rfl
  · rfl

/-- C9: one `validatePreferences` pass is idempotent over the evolving
defaults; the merged effective record is defaults overridden
last-write-wins per leaf key, nested objects merged one level deep;
merging a record with itself changes nothing; and hence applying the same
preference update twice yields the same stored-and-merged effective
record as applying it once. -/
theorem preference_idempotence_c9 :
    (∀ (s : Prefs) (u : PrefUpdate), KV.WF s.channels → KV.WF s.categories →
      validatePreferences (validatePreferences s u) u = validatePreferences s u) ∧
    (∀ (d : Prefs) (sp : StoredPrefs) (k : String),
      KV.get (mergeWithDefaults d sp).channels k =
        KV.orD (KV.getLast (sp.channels.getD []) k) (KV.get d.channels k) ∧
      KV.get (mergeWithDefaults d sp).categories k =
        KV.orD (KV.getLast (sp.categories.getD []) k) (KV.get d.categories k) ∧
      (mergeWithDefaults d sp).language = sp.language.getD d.language ∧
      (mergeWithDefaults d sp).unsubscribed = sp.unsubscribed.getD d.unsubscribed ∧
      (mergeWithDefaults d sp).frequency.digest =
        (sp.frequency.bind (·.digest)).getD d.frequency.digest ∧
      (mergeWithDefaults d sp).frequency.max_per_day =
        (sp.frequency.bind (·.max_per_day)).getD d.frequency.max_per_day) ∧
    (∀ p : Prefs, KV.WF p.channels → KV.WF p.categories →
      mergeWithDefaults p (toStored p) = p) ∧
    (∀ (s : Prefs) (u : PrefUpdate), KV.WF s.channels → KV.WF s.categories →
      mergeWithDefaults (validatePreferences (validatePreferences s u) u)
          (toStored (validatePreferences (validatePreferences s u) u)) =
        mergeWithDefaults (validatePreferences s u) (toStored (validatePreferences s u))) := by
  refine ⟨validate_idem, ?_, merge_toStored_self, ?_⟩
  · intro d sp k
    refine ⟨?_, ?_, rfl, rfl, rfl, rfl⟩
    · show KV.get (KV.setAll d.channels (sp.channels.getD [])) k = _
      exact KV.get_setAll _ _ k
    · show KV.get (KV.setAll d.categories (sp.categories.getD [])) k = _
      exact KV.get_setAll _ _ k
  · intro s u hwc hwcat
    rw [validate_idem s u hwc hwcat]

/-- Witness for C9 at the built-in defaults and a concrete update. -/
theorem preference_idempotence_c9_witness :
    validatePreferences
        (validatePreferences defaultPreferences
          { channels := some [("sms", some true), ("email", none)]
            categories := some [("security", some false), ("marketing", some false)]
            frequency := some { digest := some "weekly", max_per_day := some 0, quiet_hours := none } })
        { channels := some [("sms", some true), ("email", none)]
          categories := some [("security", some false), ("marketing", some false)]
          frequency := some { digest := some "weekly", max_per_day := some 0, quiet_hours := none } } =
      validatePreferences defaultPreferences
        { channels := some [("sms", some true), ("email", none)]
          categories := some [("security", some false), ("marketing", some false)]
          frequency := some { digest := some "weekly", max_per_day := some 0, quiet_hours := none } } ∧
    mergeWithDefaults defaultPreferences (toStored defaultPreferences) = defaultPreferences :=
  ⟨preference_idempotence_c9.1 defaultPreferences _ (by decide) (by decide),
   preference_idempotence_c9.2.2.1 defaultPreferences (by decide) (by decide)⟩

/-- C5 (the short-circuit half, plus the failing `unsubscribeAll`
pipeline): a record with `unsubscribed` set makes `applyPreferences`
return `send:false, reason:"user_unsubscribed"` whatever the quiet-hours
window, daily count or channel/category settings are; but the record
`unsubscribeAll` actually validates and stores for a user with stored
preferences has `unsubscribed = false` (the flag is dropped by
`validatePreferences`), and evaluating it at local noon with no messages
logged yields `send:true`. -/
theorem unsubscribe_shortcircuit_c5 :
    (∀ (p : Prefs) (ctx : SendContext), p.unsubscribed = true →
      applyPreferences p ctx =
        { send := false, reason := some "user_unsubscribed", reschedule := none }) ∧
    ((unsubscribeAllValidated defaultPreferences ⟨none, none, none, none, none⟩).unsubscribed = false ∧
     applyPreferences (unsubscribeAllValidated defaultPreferences ⟨none, none, none, none, none⟩)
        { localTime := 720, serverNow := 144120, serverOffset := 0, recipientOffset := 0, logs := [] } =
       { send := true, reason := none, reschedule := none }) := by
  refine ⟨fun p ctx h => by simp [applyPreferences, h], by decide, by decide⟩

/-- Witness for C5's universally quantified part at a concrete
unsubscribed record. -/
theorem unsubscribe_shortcircuit_c5_witness :
    applyPreferences
        { defaultPreferences with unsubscribed := true }
        { localTime := 720, serverNow := 144120, serverOffset := 0, recipientOffset := 0, logs := [] } =
      { send := false, reason := some "user_unsubscribed", reschedule := none } :=
  unsubscribe_shortcircuit_c5.1 _ _ (by decide)

/-- C8 counterexample: the daily count uses midnight on the SERVER's
clock, not the recipient's.  With the server on UTC (offset 0) at epoch
minute 144120 (00:02 into day 100) and the recipient at UTC-5 (offset
-300, local 19:00 of day 99), a message logged at epoch minute 143000
falls before the server's midnight but after the recipient's local
midnight: the code counts 0 while the claim's recipient-timezone count is
1, so with `max_per_day = 1` the code allows a send the claim says is
blocked. -/
theorem daily_cap_c8_counterexample :
    getTodayMessageCount
        { localTime := 720, serverNow := 144120, serverOffset := 0,
          recipientOffset := -300, logs := [143000] } = 0 ∧
    getTodayMessageCountRecipientTz
        { localTime := 720, serverNow := 144120, serverOffset := 0,
          recipientOffset := -300, logs := [143000] } = 1 ∧
    applyPreferences
        { defaultPreferences with
          frequency := { defaultPreferences.frequency with max_per_day := 1 } }
        { localTime := 720, serverNow := 144120, serverOffset := 0,
          recipientOffset := -300, logs := [143000] } =
      { send := true, reason := none, reschedule := none } ∧
    ¬ getTodayMessageCount
        { localTime := 720, serverNow := 144120, serverOffset := 0,
          recipientOffset := -300, logs := [143000] } =
      getTodayMessageCountRecipientTz
        { localTime := 720, serverNow := 144120, serverOffset := 0,
          recipientOffset := -300, logs := [143000] } := by
  decide

/-- C8 as amended: the count runs from midnight on the server's local
clock (the recipient's timezone is never consulted), and — when the
recipient is not unsubscribed and not in quiet hours — evaluation returns
`send:false, reason:"daily_limit_reached"` exactly when that count has
reached `max_per_day`. -/
theorem daily_cap_c8_amended (p : Prefs) (ctx : SendContext)
    (h1 : p.unsubscribed = false)
    (h2 : isQuietHours p.frequency.quiet_hours ctx.localTime = false) :
    (((applyPreferences p ctx).send = false ∧
      (applyPreferences p ctx).reason = some "daily_limit_reached") ↔
      p.frequency.max_per_day ≤ (getTodayMessageCount ctx : Int)) ∧
    (∀ ro : Int, getTodayMessageCount { ctx with recipientOffset := ro } = getTodayMessageCount ctx) := by
  constructor
  · by_cases hcap : p.frequency.max_per_day ≤ (getTodayMessageCount ctx : Int) <;>
      simp [applyPreferences, h1, h2, hcap]
  · intro ro
    rfl

/-- Witness for the amended C8 at a concrete capped record and context. -/
theorem daily_cap_c8_amended_witness :
    ((applyPreferences
        { defaultPreferences with
          frequency := { defaultPreferences.frequency with max_per_day := 1 } }
        { localTime := 720, serverNow := 144120, serverOffset := 0,
          recipientOffset := 0, logs := [144100] }).send = false ∧
      (applyPreferences
        { defaultPreferences with
          frequency := { defaultPreferences.frequency with max_per_day := 1 } }
        { localTime := 720, serverNow := 144120, serverOffset := 0,
          recipientOffset := 0, logs := [144100] }).reason = some "daily_limit_reached") ↔
      (1 : Int) ≤ (getTodayMessageCount
        { localTime := 720, serverNow := 144120, serverOffset := 0,
          recipientOffset := 0, logs := [144100] } : Int) :=
  (daily_cap_c8_amended _ _ (by decide) (by decide)).1

end UserPrefs

/-! Properties of the webhook handler. -/

namespace Webhook

/-- C2 counterexample: for the raw request body `{"type": "ok"}` (with a
space after the colon), the byte string the route feeds to the HMAC is the
re-serialization `{"type":"ok"}` of the parsed body — a different string
than the raw payload bytes, showing the digest is not computed over the
raw bytes and that parsing happens before verification. -/
theorem signature_verification_c2_counterexample :
    verifiedString "\x7b\"type\": \"ok\"\x7d" = some "\x7b\"type\":\"ok\"\x7d" ∧
    "\x7b\"type\":\"ok\"\x7d" ≠ "\x7b\"type\": \"ok\"\x7d" := by
  exact ⟨rfl, by decide⟩

/-- C2 as amended: the expected digest is the HMAC of the re-serialized
parsed body (`JSON.stringify(req.body)`, parsed by the middleware before
the handler runs), compared by `crypto.timingSafeEqual`; when the supplied
signature has the digest's length but differs from it, the route responds
401 with the engine state untouched — no event handler runs. -/
theorem signature_verification_c2_amended (hmac : String → String → String)
    (secret raw sig : String) (body : Json) (st : EngineState) (now : Int)
    (hparse : expressJsonBody raw = some body)
    (hlen : sig.length = (hmac secret (stringifyJson body)).length)
    (hne : sig ≠ hmac secret (stringifyJson body)) :
    courierWebhookRoute hmac secret now raw sig st = (RouteOutcome.response 401, st) := by
  simp [courierWebhookRoute, hparse, verifyWebhookSignature, timingSafeEqual, hlen, hne]

/-- Witness for the amended C2 with a concrete (degenerate) HMAC and a
same-length wrong signature. -/
theorem signature_verification_c2_amended_witness :
    courierWebhookRoute (fun _ s => s) "sec" 0 "[1]" "[2]" EngineState.empty =
      (RouteOutcome.response 401, EngineState.empty) :=
  signature_verification_c2_amended (fun _ s => s) "sec" "[1]" "[2]"
    (Json.arr [Json.num 1]) EngineState.empty 0 rfl rfl (by decide)

theorem getProfile_profilesMerge_self (st : EngineState) (uid : String)
    (fields : List (String × PVal)) :
    getProfile (profilesMerge st uid fields) uid = KV.setAll (getProfile st uid) fields := by
  show (KV.get (KV.set st.profiles uid (KV.setAll (getProfile st uid) fields)) uid).getD [] = _
  rw [KV.get_set, if_pos rfl]
  rfl

theorem getLast_pair_self (k k2 : String) (v1 v2 : PVal) (hne : k2 ≠ k) :
    KV.getLast [(k, v1), (k2, v2)] k = some v1 := by
  simp [KV.getLast, hne]

theorem updateUserEngagement_count (now : Int) (st : EngineState) (uid action channel : String)
    (hne : "last_engagement" ≠ channel ++ "_" ++ action ++ "_count") :
    engagementCount (updateUserEngagement now st uid action channel) uid channel action =
      engagementCount st uid channel action + 1 := by
  unfold engagementCount updateUserEngagement
  rw [getProfile_profilesMerge_self]
  unfold profileInt
  rw [KV.get_setAll, getLast_pair_self _ _ _ _ hne]
  rfl

/-- C6 counterexample: ingesting the identical `message:sent` event (same
message id `m1`) twice does not have the same effect as ingesting it once
— the recipient's `email_message_sent_count` engagement counter reads 1
after one ingestion and 2 after the replay, so the two states differ and
the metric is double-counted. -/
theorem webhook_idempotence_c6_counterexample :
    engagementCount (dispatchEvent 0 EngineState.empty "message:sent"
        (sentEvent "m1" "u1" "welcome" "email")) "u1" "email" "message_sent" = 1 ∧
    engagementCount (dispatchEvent 0 (dispatchEvent 0 EngineState.empty "message:sent"
        (sentEvent "m1" "u1" "welcome" "email")) "message:sent"
        (sentEvent "m1" "u1" "welcome" "email")) "u1" "email" "message_sent" = 2 ∧
    dispatchEvent 0 (dispatchEvent 0 EngineState.empty "message:sent"
        (sentEvent "m1" "u1" "welcome" "email")) "message:sent"
        (sentEvent "m1" "u1" "welcome" "email") ≠
      dispatchEvent 0 EngineState.empty "message:sent" (sentEvent "m1" "u1" "welcome" "email") := by
  refine ⟨rfl, rfl, fun h => ?_⟩
  have h2 := congrArg (fun st => engagementCount st "u1" "email" "message_sent") h
  exact absurd h2 (by decide)

/-- C6 as amended: the handlers hold no record of already-seen event ids,
so each ingestion of a `message:sent` event re-applies its effects — the
recipient's per-channel sent counter grows by one and one analytics entry
is appended per ingestion; replaying the identical event id therefore
double-counts instead of being a no-op. -/
theorem webhook_replay_c6_amended (now : Int) (st : EngineState) (ev : Json) (uid ch : String)
    (hu : getStrD ev "recipientId" = uid) (hc : getStrD ev "channel" = ch) :
    engagementCount (dispatchEvent now st "message:sent" ev) uid ch "message_sent" =
      engagementCount st uid ch "message_sent" + 1 ∧
    (dispatchEvent now st "message:sent" ev).analytics = st.analytics ++ ["message_sent"] := by
  have hne : "last_engagement" ≠ ch ++ "_" ++ "message_sent" ++ "_count" := by
    intro h
    have h2 := congrArg String.length h
    simp only [String.length_append] at h2
    have e1 : ("last_engagement" : String).length = 15 := rfl
    have e2 : ("_" : String).length = 1 := rfl
    have e3 : ("message_sent" : String).length = 12 := rfl
    have e4 : ("_count" : String).length = 6 := rfl
    rw [e1, e2, e3, e4] at h2
    omega
  constructor
  · show engagementCount (handleMessageSent now st ev) uid ch "message_sent" = _
    unfold handleMessageSent
    rw [hu, hc]
    exact updateUserEngagement_count now (logAnalyticsEvent st "message_sent") uid "message_sent" ch hne
  · rfl

/-- Witness for the amended C6 at a concrete event and the empty state. -/
theorem webhook_replay_c6_amended_witness :
    engagementCount (dispatchEvent 0 EngineState.empty "message:sent"
        (sentEvent "m1" "u1" "welcome" "email")) "u1" "email" "message_sent" =
      engagementCount EngineState.empty "u1" "email" "message_sent" + 1 ∧
    (dispatchEvent 0 EngineState.empty "message:sent"
        (sentEvent "m1" "u1" "welcome" "email")).analytics =
      EngineState.empty.analytics ++ ["message_sent"] :=
  webhook_replay_c6_amended 0 EngineState.empty (sentEvent "m1" "u1" "welcome" "email")
    "u1" "email" rfl rfl

theorem soft_retry_step (st : EngineState) (m uid : String) :
    dispatchEvent 0 st "message:undeliverable" (undeliverableEvent m uid "email" "soft_bounce") =
      scheduleRetry (logAnalyticsEvent st "message_failed") m uid := rfl

theorem scheduleRetry_grows (st : EngineState) (m uid : String)
    (h : retryCountOf st uid m < (retryDelays.length : Int)) :
    retriesFor (scheduleRetry st m uid) m = retriesFor st m + 1 ∧
    retryCountOf (scheduleRetry st m uid) uid m = retryCountOf st uid m + 1 := by
  have h' : profileInt (getProfile st uid) ("message_" ++ m ++ "_retry_count") <
      (retryDelays.length : Int) := h
  constructor
  · unfold scheduleRetry
    dsimp only
    rw [if_pos h']
    unfold retriesFor profilesMerge
    simp [List.filter_append]
  · unfold scheduleRetry
    dsimp only
    rw [if_pos h']
    unfold retryCountOf
    rw [getProfile_profilesMerge_self]
    unfold profileInt
    rw [KV.get_setAll]
    simp [KV.getLast, KV.orD]

theorem scheduleRetry_stops (st : EngineState) (m uid : String)
    (h : ¬ retryCountOf st uid m < (retryDelays.length : Int)) :
    scheduleRetry st m uid = st := by
  have h' : ¬ profileInt (getProfile st uid) ("message_" ++ m ++ "_retry_count") <
      (retryDelays.length : Int) := h
  unfold scheduleRetry
  dsimp only
  rw [if_neg h']

theorem soft_retry_iterate (m uid : String) (n : Nat) :
    retriesFor ((fun st => dispatchEvent 0 st "message:undeliverable"
        (undeliverableEvent m uid "email" "soft_bounce"))^[n] EngineState.empty) m = min n 4 ∧
    retryCountOf ((fun st => dispatchEvent 0 st "message:undeliverable"
        (undeliverableEvent m uid "email" "soft_bounce"))^[n] EngineState.empty) uid m =
      ((min n 4 : Nat) : Int) := by
  have hlen : retryDelays.length = 4 := rfl
  induction n with
  | zero => exact ⟨rfl, rfl⟩
  | succ k ih =>
    rw [Function.iterate_succ_apply']
    rw [soft_retry_step]
    set stk := (fun st => dispatchEvent 0 st "message:undeliverable"
        (undeliverableEvent m uid "email" "soft_bounce"))^[k] EngineState.empty with hstk
    have hcount : retryCountOf (logAnalyticsEvent stk "message_failed") uid m =
        ((min k 4 : Nat) : Int) := ih.2
    have hretr : retriesFor (logAnalyticsEvent stk "message_failed") m = min k 4 := ih.1
    by_cases hk : k < 4
    · have ha : min k 4 = k := Nat.min_eq_left (le_of_lt hk)
      have hb : min (k + 1) 4 = k + 1 := Nat.min_eq_left hk
      have hlt : retryCountOf (logAnalyticsEvent stk "message_failed") uid m <
          (retryDelays.length : Int) := by
        rw [hcount, hlen, ha]
        exact_mod_cast hk
      obtain ⟨h1, h2⟩ := scheduleRetry_grows (logAnalyticsEvent stk "message_failed") m uid hlt
      refine ⟨?_, ?_⟩
      · rw [h1, hretr, ha, hb]
      · rw [h2, hcount, ha, hb]
        push_cast
        ring
    · have ha : min k 4 = 4 := Nat.min_eq_right (by omega)
      have hb : min (k + 1) 4 = 4 := Nat.min_eq_right (by omega)
      have hge : ¬ retryCountOf (logAnalyticsEvent stk "message_failed") uid m <
          (retryDelays.length : Int) := by
        rw [hcount, hlen, ha]
        exact lt_irrefl _
      rw [scheduleRetry_stops (logAnalyticsEvent stk "message_failed") m uid hge]
      refine ⟨?_, ?_⟩
      · rw [hretr, ha, hb]
      · rw [hcount, ha, hb]

theorem hard_fail_step_invalid (st : EngineState) (m uid ch : String) :
    dispatchEvent 0 st "message:undeliverable" (undeliverableEvent m uid ch "invalid_email") =
      handleInvalidEmail (logAnalyticsEvent st "message_failed") uid := rfl

theorem hard_fail_step_bounce (st : EngineState) (m uid ch : String) :
    dispatchEvent 0 st "message:undeliverable" (undeliverableEvent m uid ch "hard_bounce") =
      handleInvalidEmail (logAnalyticsEvent st "message_failed") uid := rfl

theorem handleInvalidEmail_retries (st : EngineState) (uid : String) :
    (handleInvalidEmail st uid).retries = st.retries := by
  unfold handleInvalidEmail
  dsimp only
  split
  · split <;> rfl
  · rfl

theorem handleInvalidEmail_marks (st : EngineState) (uid : String) :
    KV.get (getProfile (handleInvalidEmail st uid) uid) "email_valid" = some (PVal.b false) := by
  have hmerge : KV.get (getProfile (profilesMerge st uid
      [("email_valid", PVal.b false), ("email_bounce_type", PVal.s "hard")]) uid) "email_valid" =
      some (PVal.b false) := by
    rw [getProfile_profilesMerge_self, KV.get_setAll,
      getLast_pair_self _ _ _ _ (by decide : ("email_bounce_type" : String) ≠ "email_valid")]
    rfl
  unfold handleInvalidEmail
  dsimp only
  split
  · split
    · exact hmerge
    · exact hmerge
  · exact hmerge

/-- C7: the backoff delays (5 min, 30 min, 2 h, 24 h) are distinct and
increasing; a message failing with the retryable `soft_bounce` reason is
retried exactly once per failure up to the sequence length of 4 and never
again afterwards; and a failure with reason `invalid_email` or
`hard_bounce` schedules zero retries and immediately writes
`email_valid = false` into the recipient profile (so later routing can
skip the channel). -/
theorem retry_policy_c7 :
    List.Chain' (· < ·) retryDelays ∧
    retryDelays.length = 4 ∧
    (∀ n : Nat, retriesFor ((fun st => dispatchEvent 0 st "message:undeliverable"
        (undeliverableEvent "m1" "u1" "email" "soft_bounce"))^[n] EngineState.empty) "m1" =
      min n 4) ∧
    (∀ st : EngineState,
      (dispatchEvent 0 st "message:undeliverable"
          (undeliverableEvent "m1" "u1" "email" "invalid_email")).retries = st.retries ∧
      KV.get (getProfile (dispatchEvent 0 st "message:undeliverable"
          (undeliverableEvent "m1" "u1" "email" "invalid_email")) "u1") "email_valid" =
        some (PVal.b false)) ∧
    (∀ st : EngineState,
      (dispatchEvent 0 st "message:undeliverable"
          (undeliverableEvent "m1" "u1" "email" "hard_bounce")).retries = st.retries ∧
      KV.get (getProfile (dispatchEvent 0 st "message:undeliverable"
          (undeliverableEvent "m1" "u1" "email" "hard_bounce")) "u1") "email_valid" =
        some (PVal.b false)) := by
  refine ⟨by norm_num [retryDelays, List.chain'_cons], rfl,
    fun n => (soft_retry_iterate "m1" "u1" n).1, fun st => ?_, fun st => ?_⟩
  · rw [hard_fail_step_invalid]
    exact ⟨handleInvalidEmail_retries _ _, handleInvalidEmail_marks _ _⟩
  · rw [hard_fail_step_bounce]
    exact ⟨handleInvalidEmail_retries _ _, handleInvalidEmail_marks _ _⟩

end Webhook

/-! The Slack escalation dedupe. -/

namespace Escalation

/-- C3 (code bug): for a profile meeting the escalation criteria
(enterprise plan, onboarding not completed, 5 days since signup, not yet
escalated), the first `checkAndEscalate` call sends the Slack alert but
then rejects with `ReferenceError: profile is not defined` inside
`markAsEscalated` (whose merge object reads the out-of-scope variable
`profile`), so the `escalated` flag is never stored; the second call
therefore sends a second alert — two consecutive calls emit 2 alerts, not
1, and the profile is never marked escalated. -/
theorem escalation_dedupe_c3_bug :
    (checkAndEscalate ⟨"enterprise", "in_progress", 5, false, 0⟩).alerts +
      (checkAndEscalate
        (checkAndEscalate ⟨"enterprise", "in_progress", 5, false, 0⟩).profile).alerts = 2 ∧
    (checkAndEscalate ⟨"enterprise", "in_progress", 5, false, 0⟩).profile.escalated = false ∧
    (checkAndEscalate ⟨"enterprise", "in_progress", 5, false, 0⟩).outcome =
      Except.error "ReferenceError: profile is not defined" :=
  ⟨rfl, rfl, rfl⟩

end Escalation
